import Mathlib

set_option maxRecDepth 8192

/-!
Shallow embedding of the programming-joke-bot application (src/app.py):
message data model, system-prompt synthesis, request assembly, the
completion invoker, and the three session-controller actions (structured
trigger, free-text trigger, reset), together with theorems checking the
specification's claims about them.
-/

namespace JokeBot

/-- Message roles used by the app ("assistant", "user", "system"). -/
inductive Role
  | assistant
  | user
  | system
deriving DecidableEq

/-- A chat message: a role-tagged content string (`{"role": ..., "content": ...}`). -/
structure Message where
  role : Role
  content : String
deriving DecidableEq

/-- The length-directive lookup used by `get_system_prompt`
(the dict-`.get` with default "Keep it concise." at src/app.py lines 30-34). -/
def length_guidance (length : String) : String :=
  if length = "Short" then "Keep it to 1-2 lines."
  else if length = "Medium" then "Keep it to ~3-5 lines."
  else if length = "Long" then "You can go up to ~8 lines, but stay punchy."
  else "Keep it concise."

/-- Embedding of `get_system_prompt`, src/app.py lines 29-42: the synthesized system
instruction, an f-string concatenation over style, topic and the length guidance. -/
def get_system_prompt (style topic length : String) : String :=
  "You are a witty, clean programming comedian. " ++
  ("Tell programming-related jokes only. Style preference: " ++ style ++ ". ") ++
  ("If a topic is provided, focus on: " ++ topic ++ ". ") ++
  (length_guidance length ++ " ") ++
  "Avoid profanity, stereotypes, or sensitive content. " ++
  "Be clever, concise, and punchy. If the user asks for multiple jokes, number them."

/-- Embedding of `build_api_messages`, src/app.py lines 45-48: a fresh list holding the
system message first, then every message of the chat history in order. -/
def build_api_messages (system_prompt : String) (chat_history : List Message)
    : List Message :=
  { role := Role.system, content := system_prompt } :: chat_history

/-- Substring as an explicit decomposition: `pat` occurs inside `s`. -/
def strContains (s pat : String) : Prop :=
  ∃ p q : String, s = p ++ (pat ++ q)

/-- The request the invoker sends to `client.chat.completions.create`
(model, messages, temperature, max_tokens; src/app.py lines 52-57). -/
structure CompletionCall where
  model : String
  messages : List Message
  temperature : ℚ
  max_tokens : Nat
deriving DecidableEq

/-- One choice of a completion response: `choice.message.content`. -/
structure Choice where
  content : String
deriving DecidableEq

/-- A completion-service response: its list of choices
(`response.choices`). -/
structure ChatResponse where
  choices : List Choice
deriving DecidableEq

/-- The external completion service as an oracle: each call either returns a
response or raises, surfaced here as `Except` with the error text. -/
def Service : Type :=
  CompletionCall → Except String ChatResponse

/-- Embedding of `get_joke_reply`, src/app.py lines 51-58, with the calls it performs
made explicit: it issues the single `create` call and extracts
`response.choices[0].message.content`; an empty `choices` list raises an
IndexError in Python, surfaced here as an error. Returns the list of calls
performed paired with the result. -/
def get_joke_reply (client : Service) (model : String) (messages : List Message)
    (temperature : ℚ) (max_tokens : Nat) : List CompletionCall × Except String String :=
  let call : CompletionCall :=
    { model := model, messages := messages, temperature := temperature,
      max_tokens := max_tokens }
  ⟨[call],
    match client call with
    | Except.error e => Except.error e
    | Except.ok response =>
        match response.choices with
        | [] => Except.error "IndexError: list index out of range"
        | c :: _ => Except.ok c.content⟩

/-- Invocation of `get_joke_reply` without an explicit max-token bound: Python's
default argument `max_tokens: int = 400` applies (src/app.py line 51). -/
def get_joke_reply_default (client : Service) (model : String)
    (messages : List Message) (temperature : ℚ) : List CompletionCall × Except String String :=
  get_joke_reply client model messages temperature 400

/-- Per-session state: the Conversation (`st.session_state.messages`) plus the
generation preferences (`style`, `topic`, `length`, `temperature`). The Python
float temperature is embedded as a rational; it is only ever passed through. -/
structure SessionState where
  messages : List Message
  style : String
  topic : String
  length : String
  temperature : ℚ
deriving DecidableEq

/-- The greeting seeded by `init_session` (src/app.py lines 13-18). -/
def init_greeting : Message :=
  { role := Role.assistant,
    content := "Hello! I'm your programming joke bot. Ask me for a joke about any language, framework, or bug!" }

/-- Embedding of `init_session` on a fresh session (src/app.py lines 11-26): every key is
absent, so the greeting and the default preferences are installed. -/
def init_session : SessionState :=
  { messages := [init_greeting], style := "One-liner", topic := "Python",
    length := "Short", temperature := 0.8 }

/-- The greeting installed by the "New Chat" button (src/app.py lines 100-102). -/
def new_chat_greeting : Message :=
  { role := Role.assistant,
    content := "New chat started! What topic should the next joke be about?" }

/-- The "New Chat" (Reset) action, src/app.py lines 99-102: replaces
`st.session_state.messages` with a single fresh assistant greeting;
nothing else is touched. -/
def new_chat (st : SessionState) : SessionState :=
  { st with messages := [new_chat_greeting] }

/-- Python's `str.lower` on the ASCII style names used by the app:
each character lowercased. -/
def pyLower (s : String) : String :=
  String.mk (s.data.map Char.toLower)

/-- The user message synthesized by the structured trigger, src/app.py
line 105: `f"Tell me a \x7bst.session_state.style.lower()\x7d joke about \x7bst.session_state.topic\x7d."`. -/
def structured_user_prompt (style topic : String) : String :=
  "Tell me a " ++ (pyLower style ++ (" joke about " ++ (topic ++ ".")))

/-- The "Tell me a joke now" structured trigger, src/app.py lines 104-117:
append the synthesized user message, build the system prompt and payload,
call the invoker (default max_tokens); append the reply on success, on any
error only show an inline message (the Conversation keeps just the appended
user message). -/
def structured_trigger (client : Service) (st : SessionState) : SessionState :=
  let user_prompt := structured_user_prompt st.style st.topic
  let messages1 := st.messages ++ [{ role := Role.user, content := user_prompt }]
  let system_prompt := get_system_prompt st.style st.topic st.length
  let api_messages := build_api_messages system_prompt messages1
  match (get_joke_reply_default client "gpt-4" api_messages st.temperature).2 with
  | Except.ok reply =>
      { st with messages := messages1 ++ [{ role := Role.assistant, content := reply }] }
  | Except.error _ => { st with messages := messages1 }

/-- The free-text trigger, src/app.py lines 126-144: `st.chat_input` yields a
falsy value (here the empty string) when nothing was submitted, in which case
nothing happens; otherwise the literal text is appended as a user message, the
invoker is called, and the reply is appended on success while an error returns
early leaving only the user message appended. -/
def free_text_trigger (client : Service) (input : String) (st : SessionState)
    : SessionState :=
  if input = "" then st
  else
    let messages1 := st.messages ++ [{ role := Role.user, content := input }]
    let system_prompt := get_system_prompt st.style st.topic st.length
    let api_messages := build_api_messages system_prompt messages1
    match (get_joke_reply_default client "gpt-4" api_messages st.temperature).2 with
    | Except.ok reply =>
        { st with messages := messages1 ++ [{ role := Role.assistant, content := reply }] }
    | Except.error _ => { st with messages := messages1 }

/-- Session states reachable through the operations the spec describes:
fresh-session initialization, Reset, the structured trigger and the free-text
trigger, each with an arbitrary completion service (so both success and
failure runs are covered). -/
inductive Reachable : SessionState → Prop
  | init : Reachable init_session
  | reset (st : SessionState) : Reachable st → Reachable (new_chat st)
  | structured (client : Service) (st : SessionState) :
      Reachable st → Reachable (structured_trigger client st)
  | freeText (client : Service) (input : String) (st : SessionState) :
      Reachable st → Reachable (free_text_trigger client input st)

/-- Python-list heap model for `build_api_messages` (src/app.py lines 45-48):
the store maps references to list values; `messages = [system]` allocates a
fresh list, `messages.extend(chat_history)` reads (never writes) the argument
list. Returns the updated store and the reference of the new list. -/
def build_api_messages_heap (store : List (List Message)) (system_prompt : String)
    (chat_history_ref : Nat) : List (List Message) × Nat :=
  let new_list :=
    { role := Role.system, content := system_prompt } :: store.getD chat_history_ref []
  (store ++ [new_list], store.length)

end JokeBot

namespace JokeBot

/-- Helper: whatever the length guidance resolves to occurs as a substring of
the synthesized system prompt, for every style and topic. -/
theorem strContains_of_length_guidance (style topic length g : String)
    (hg : length_guidance length = g) :
    strContains (get_system_prompt style topic length) g := by
  refine ⟨"You are a witty, clean programming comedian. " ++
    ("Tell programming-related jokes only. Style preference: " ++ style ++ ". ") ++
    ("If a topic is provided, focus on: " ++ topic ++ ". "),
    " " ++ ("Avoid profanity, stereotypes, or sensitive content. " ++
    "Be clever, concise, and punchy. If the user asks for multiple jokes, number them."), ?_⟩
  simp [get_system_prompt, hg, String.append_assoc]

/-- Helper: the structured trigger only ever appends to the Conversation. -/
theorem structured_trigger_suffix (client : Service) (st : SessionState) :
    ∃ rest, (structured_trigger client st).messages = st.messages ++ rest := by
  simp only [structured_trigger]
  split
  · exact ⟨_, List.append_assoc _ _ _⟩
  · exact ⟨_, rfl⟩

/-- Helper: the free-text trigger only ever appends to the Conversation. -/
theorem free_text_trigger_suffix (client : Service) (input : String)
    (st : SessionState) :
    ∃ rest, (free_text_trigger client input st).messages = st.messages ++ rest := by
  simp only [free_text_trigger]
  by_cases h : input = ""
  · exact ⟨[], by simp [h]⟩
  · rw [if_neg h]
    split
    · exact ⟨_, List.append_assoc _ _ _⟩
    · exact ⟨_, rfl⟩

/-- C2: `build_api_messages` returns a list of length `1 + |h|` whose head is
the system message carrying the given prompt and whose elements `1..|h|` are
exactly the history in original order — no filtering, truncation or
deduplication. -/
theorem c2_request_assembler (s : String) (h : List Message) :
    (build_api_messages s h).length = 1 + h.length ∧
    (build_api_messages s h).get? 0 = some { role := Role.system, content := s } ∧
    (build_api_messages s h).drop 1 = h := by
  refine ⟨?_, rfl, rfl⟩
  simp [build_api_messages, Nat.add_comm]

/-- C3: for every style and topic the synthesized system prompt contains the
exact guidance string of the fixed lookup table for Short, Medium and Long,
and contains "Keep it concise." for every other length value. -/
theorem c3_length_lookup (style topic length : String) :
    strContains (get_system_prompt style topic "Short") "Keep it to 1-2 lines." ∧
    strContains (get_system_prompt style topic "Medium") "Keep it to ~3-5 lines." ∧
    strContains (get_system_prompt style topic "Long")
      "You can go up to ~8 lines, but stay punchy." ∧
    (length ≠ "Short" → length ≠ "Medium" → length ≠ "Long" →
      strContains (get_system_prompt style topic length) "Keep it concise.") := by
  refine ⟨strContains_of_length_guidance _ _ _ _ rfl,
    strContains_of_length_guidance _ _ _ _ rfl,
    strContains_of_length_guidance _ _ _ _ rfl, ?_⟩
  intro h1 h2 h3
  exact strContains_of_length_guidance _ _ _ _ (by simp [length_guidance, h1, h2, h3])

/-- Witness for C3 at a concrete unrecognized length value. -/
theorem c3_length_lookup_witness :
    strContains (get_system_prompt "Pun" "Git" "Tiny") "Keep it concise." :=
  (c3_length_lookup "Pun" "Git" "Tiny").2.2.2 (by decide) (by decide) (by decide)

/-- C5: Reset ("New Chat") always yields a Conversation of length exactly 1
whose sole message is the fresh assistant greeting, discarding prior history. -/
theorem c5_reset_conversation (st : SessionState) :
    (new_chat st).messages.length = 1 ∧
    (new_chat st).messages = [new_chat_greeting] ∧
    new_chat_greeting.role = Role.assistant :=
  ⟨rfl, rfl, rfl⟩

/-- C6: Reset modifies only the Conversation — style, topic, length and
temperature are unchanged. -/
theorem c6_reset_frame (st : SessionState) :
    (new_chat st).style = st.style ∧ (new_chat st).topic = st.topic ∧
    (new_chat st).length = st.length ∧
    (new_chat st).temperature = st.temperature :=
  ⟨rfl, rfl, rfl, rfl⟩

/-- The claim's literal reading of the structured-trigger template, stated
from the spec's words for comparison with `structured_user_prompt` from the
source: the current style substituted verbatim, without lowercasing. -/
def spec_literal_user_prompt (style topic : String) : String :=
  "Tell me a " ++ (style ++ (" joke about " ++ (topic ++ ".")))

/-- C4 counterexample: with style "Pun" and topic "Git" the structured trigger
appends the user message "Tell me a pun joke about Git." (the style is
lowercased by the code), which is not the verbatim substitution
"Tell me a Pun joke about Git." the claim describes. -/
theorem c4_counterexample :
    (structured_trigger (fun _ => Except.error "boom")
        { init_session with style := "Pun", topic := "Git" }).messages.get? 1 =
      some { role := Role.user, content := "Tell me a pun joke about Git." } ∧
    "Tell me a pun joke about Git." ≠ spec_literal_user_prompt "Pun" "Git" := by
  exact ⟨by decide, by decide⟩

/-- Helper: taking `|l| + 1` elements of `l` extended by `u` and anything
after it yields exactly `l ++ [u]`. -/
theorem take_succ_append {α : Type} (l rest : List α) (u : α) :
    (l ++ u :: rest).take (l.length + 1) = l ++ [u] := by
  induction l with
  | nil => rfl
  | cons a tl ih => simp only [List.cons_append, List.length_cons,
      List.take_succ_cons, ih]

/-- C4 (amended): for every current style and topic, the structured trigger
appends at position `|Conversation|` a user-role message whose content is the
template with the lowercased style and the topic substituted; in particular,
with style "Pun" and topic "Git" the appended message is exactly
"Tell me a pun joke about Git.". -/
theorem c4_structured_user_message (client : Service) (st : SessionState) :
    (structured_trigger client st).messages.take (st.messages.length + 1) =
      st.messages ++ [{ role := Role.user,
                        content := "Tell me a " ++ (pyLower st.style ++
                          (" joke about " ++ (st.topic ++ "."))) }] ∧
    structured_user_prompt "Pun" "Git" = "Tell me a pun joke about Git." := by
  refine ⟨?_, by decide⟩
  simp only [structured_trigger, structured_user_prompt]
  split
  · rw [List.append_assoc]
    exact take_succ_append _ _ _
  · exact take_succ_append _ _ _

/-- C9: without an explicit max-token bound the invoker performs exactly one
call to the completion service — carrying the given model, message list and
temperature with max_tokens = 400 — and returns the textual content of the
first choice of the service's response. -/
theorem c9_completion_invoker (client : Service) (model : String)
    (messages : List Message) (temperature : ℚ) :
    (get_joke_reply_default client model messages temperature).1 =
      [{ model := model, messages := messages, temperature := temperature,
         max_tokens := 400 }] ∧
    ∀ response c rest,
      client { model := model, messages := messages, temperature := temperature,
               max_tokens := 400 } = Except.ok response →
      response.choices = c :: rest →
      (get_joke_reply_default client model messages temperature).2 =
        Except.ok c.content := by
  refine ⟨rfl, ?_⟩
  intro response c rest hc hch
  simp [get_joke_reply_default, get_joke_reply, hc, hch]

/-- Witness for C9 at a concrete service that answers with one choice. -/
theorem c9_completion_invoker_witness :
    (get_joke_reply_default
        (fun _ => Except.ok { choices := [{ content := "ha" }] })
        "gpt-4" [] 1).2 = Except.ok "ha" :=
  (c9_completion_invoker (fun _ => Except.ok { choices := [{ content := "ha" }] })
      "gpt-4" [] 1).2
    { choices := [{ content := "ha" }] } { content := "ha" } [] rfl rfl

/-- C10: in the heap model of the two Python lines, the request assembler
allocates a fresh list (its reference differs from the history's), that fresh
list holds the system message followed by the history, and the history the
caller passed in is unchanged in the store. -/
theorem c10_assembler_no_mutation (store : List (List Message)) (s : String)
    (r : Nat) (h : r < store.length) :
    (build_api_messages_heap store s r).1.get? r = store.get? r ∧
    (build_api_messages_heap store s r).2 ≠ r ∧
    (build_api_messages_heap store s r).1.get? (build_api_messages_heap store s r).2 =
      some (build_api_messages s (store.getD r [])) := by
  refine ⟨?_, ?_, ?_⟩
  · exact List.get?_append h
  · exact ne_of_gt h
  · exact List.get?_concat_length store _

/-- Witness for C10 at a concrete one-list store. -/
theorem c10_assembler_no_mutation_witness :
    (build_api_messages_heap [[init_greeting]] "sys" 0).1.get? 0 =
      ([[init_greeting]] : List (List Message)).get? 0 ∧
    (build_api_messages_heap [[init_greeting]] "sys" 0).2 ≠ 0 ∧
    (build_api_messages_heap [[init_greeting]] "sys" 0).1.get?
        (build_api_messages_heap [[init_greeting]] "sys" 0).2 =
      some (build_api_messages "sys" (([[init_greeting]] : List (List Message)).getD 0 [])) :=
  c10_assembler_no_mutation [[init_greeting]] "sys" 0 (by decide)

/-- C1: whenever the completion call fails, for the structured trigger as for
the free-text trigger, the Conversation afterwards is exactly the Conversation
as it was immediately before the call — the triggering user message and
nothing else appended, so its length is the pre-trigger length plus one. -/
theorem c1_failure_preserves_conversation (client : Service) (st : SessionState)
    (input : String) (e1 e2 : String) :
    ((get_joke_reply_default client "gpt-4"
        (build_api_messages (get_system_prompt st.style st.topic st.length)
          (st.messages ++
            [{ role := Role.user,
               content := structured_user_prompt st.style st.topic }]))
        st.temperature).2 = Except.error e1 →
      (structured_trigger client st).messages =
        st.messages ++
          [{ role := Role.user,
             content := structured_user_prompt st.style st.topic }] ∧
      (structured_trigger client st).messages.length = st.messages.length + 1) ∧
    (input ≠ "" →
      (get_joke_reply_default client "gpt-4"
        (build_api_messages (get_system_prompt st.style st.topic st.length)
          (st.messages ++ [{ role := Role.user, content := input }]))
        st.temperature).2 = Except.error e2 →
      (free_text_trigger client input st).messages =
        st.messages ++ [{ role := Role.user, content := input }] ∧
      (free_text_trigger client input st).messages.length =
        st.messages.length + 1) := by
  constructor
  · intro hfail
    have hmsg : (structured_trigger client st).messages =
        st.messages ++
          [{ role := Role.user,
             content := structured_user_prompt st.style st.topic }] := by
      simp only [structured_trigger, hfail]
    exact ⟨hmsg, by rw [hmsg]; simp⟩
  · intro hin hfail
    have hmsg : (free_text_trigger client input st).messages =
        st.messages ++ [{ role := Role.user, content := input }] := by
      simp only [free_text_trigger, if_neg hin, hfail]
    exact ⟨hmsg, by rw [hmsg]; simp⟩

/-- Witness for C1 with a service that always fails, on the fresh session. -/
theorem c1_failure_preserves_conversation_witness :
    ((structured_trigger (fun _ => Except.error "boom") init_session).messages =
        init_session.messages ++
          [{ role := Role.user,
             content := structured_user_prompt init_session.style init_session.topic }] ∧
      (structured_trigger (fun _ => Except.error "boom") init_session).messages.length =
        init_session.messages.length + 1) ∧
    ((free_text_trigger (fun _ => Except.error "boom") "hi" init_session).messages =
        init_session.messages ++ [{ role := Role.user, content := "hi" }] ∧
      (free_text_trigger (fun _ => Except.error "boom") "hi" init_session).messages.length =
        init_session.messages.length + 1) :=
  ⟨(c1_failure_preserves_conversation (fun _ => Except.error "boom") init_session
      "hi" "boom" "boom").1 rfl,
   (c1_failure_preserves_conversation (fun _ => Except.error "boom") init_session
      "hi" "boom" "boom").2 (by decide) rfl⟩

/-- C7: in every session state reachable by initialization, Reset, the
structured trigger and the free-text trigger (whether the call succeeds or
fails), the Conversation is non-empty and its first message has role
Assistant. -/
theorem c7_first_message_assistant (st : SessionState) (h : Reachable st) :
    st.messages.head?.map Message.role = some Role.assistant := by
  induction h with
  | init => rfl
  | reset st' _ _ => rfl
  | structured client st' _ ih =>
      obtain ⟨rest, hshape⟩ := structured_trigger_suffix client st'
      rw [hshape]
      cases hm : st'.messages with
      | nil => rw [hm] at ih; simp at ih
      | cons a tl => simp only [List.cons_append, List.head?_cons,
          Option.map_some]
                     rw [hm] at ih; simpa using ih
  | freeText client input st' _ ih =>
      obtain ⟨rest, hshape⟩ := free_text_trigger_suffix client input st'
      rw [hshape]
      cases hm : st'.messages with
      | nil => rw [hm] at ih; simp at ih
      | cons a tl => simp only [List.cons_append, List.head?_cons,
          Option.map_some]
                     rw [hm] at ih; simpa using ih

/-- Witness for C7 at the freshly initialized session. -/
theorem c7_first_message_assistant_witness :
    init_session.messages.head?.map Message.role = some Role.assistant :=
  c7_first_message_assistant init_session Reachable.init

/-- C8: in a fresh session with the default preferences the Conversation is a
single assistant greeting; a successful structured trigger adds exactly the
user request and the assistant reply; and the system prompt sent for that call
contains "Style preference: One-liner.", "focus on: Python." and
"Keep it to 1-2 lines.". -/
theorem c8_end_to_end (client : Service) (reply : String) :
    init_session.messages = [init_greeting] ∧
    init_greeting.role = Role.assistant ∧
    ((get_joke_reply_default client "gpt-4"
        (build_api_messages (get_system_prompt "One-liner" "Python" "Short")
          (init_session.messages ++
            [{ role := Role.user,
               content := structured_user_prompt "One-liner" "Python" }]))
        (0.8 : ℚ)).2 = Except.ok reply →
      (structured_trigger client init_session).messages =
        [init_greeting,
         { role := Role.user,
           content := structured_user_prompt "One-liner" "Python" },
         { role := Role.assistant, content := reply }]) ∧
    strContains (get_system_prompt "One-liner" "Python" "Short")
      "Style preference: One-liner." ∧
    strContains (get_system_prompt "One-liner" "Python" "Short")
      "focus on: Python." ∧
    strContains (get_system_prompt "One-liner" "Python" "Short")
      "Keep it to 1-2 lines." := by
  refine ⟨rfl, rfl, ?_, ?_, ?_, ?_⟩
  · intro hok
    simp only [structured_trigger]
    split
    · next r heq =>
        have : Except.ok (ε := String) r = Except.ok reply := by
          rw [← heq, ← hok]; rfl
        simp only [Except.ok.injEq] at this
        rw [this]
        rfl
    · next e heq =>
        exact absurd (by rw [← heq, ← hok]; rfl)
          (by simp : ¬ (Except.error (α := String) e = Except.ok reply))
  · exact ⟨"You are a witty, clean programming comedian. Tell programming-related jokes only. ",
      " If a topic is provided, focus on: Python. Keep it to 1-2 lines. Avoid profanity, stereotypes, or sensitive content. Be clever, concise, and punchy. If the user asks for multiple jokes, number them.",
      by decide⟩
  · exact ⟨"You are a witty, clean programming comedian. Tell programming-related jokes only. Style preference: One-liner. If a topic is provided, ",
      " Keep it to 1-2 lines. Avoid profanity, stereotypes, or sensitive content. Be clever, concise, and punchy. If the user asks for multiple jokes, number them.",
      by decide⟩
  · exact ⟨"You are a witty, clean programming comedian. Tell programming-related jokes only. Style preference: One-liner. If a topic is provided, focus on: Python. ",
      " Avoid profanity, stereotypes, or sensitive content. Be clever, concise, and punchy. If the user asks for multiple jokes, number them.",
      by decide⟩

/-- Witness for C8 with a service that answers with one concrete choice. -/
theorem c8_end_to_end_witness :
    (structured_trigger
        (fun _ => Except.ok { choices := [{ content := "ha" }] })
        init_session).messages =
      [init_greeting,
       { role := Role.user,
         content := structured_user_prompt "One-liner" "Python" },
       { role := Role.assistant, content := "ha" }] :=
  (c8_end_to_end (fun _ => Except.ok { choices := [{ content := "ha" }] })
      "ha").2.2.1 rfl

end JokeBot
